import Mathlib

/-! # Character maps and scaling constants of bpp

A shallow embedding of the constant tables of src/maps.c and of the libpll
related constants of src/bpp.h, followed by theorems about them.

The C tables are arrays of unsigned int indexed by a character code.  Each
table is embedded as the list of its entries, in the order and layout of the
source, and a C subscript tab[i] is embedded as the optional subscript
tab[i]? : it is none exactly when i is outside the array.
-/

set_option maxRecDepth 100000

namespace Bpp

/-! ## src/maps.c -/

/-- The table pll_map_nt of maps.c: the state-set of every character code. -/
def pll_map_nt : List Nat :=
 [
    0,  0,  0,  0,  0,  0,  0,  0,  0,  0,  0,  0,  0,  0,  0,  0,
    0,  0,  0,  0,  0,  0,  0,  0,  0,  0,  0,  0,  0,  0,  0,  0,
    0,  0,  0,  0,  0,  0,  0,  0,  0,  0,  0,  0,  0, 15,  0,  0,
    0,  0,  0,  0,  0,  0,  0,  0,  0,  0,  0,  0,  0,  0,  0, 15,
    0,  1, 14,  2, 13,  0,  0,  4, 11,  0,  0, 12,  0,  3, 15, 15,
    0,  0,  5,  6,  8,  8,  7,  9, 15, 10,  0,  0,  0,  0,  0,  0,
    0,  1, 14,  2, 13,  0,  0,  4, 11,  0,  0, 12,  0,  3, 15, 15,
    0,  0,  5,  6,  8,  8,  7,  9, 15, 10,  0,  0,  0,  0,  0,  0,
    0,  0,  0,  0,  0,  0,  0,  0,  0,  0,  0,  0,  0,  0,  0,  0,
    0,  0,  0,  0,  0,  0,  0,  0,  0,  0,  0,  0,  0,  0,  0,  0,
    0,  0,  0,  0,  0,  0,  0,  0,  0,  0,  0,  0,  0,  0,  0,  0,
    0,  0,  0,  0,  0,  0,  0,  0,  0,  0,  0,  0,  0,  0,  0,  0,
    0,  0,  0,  0,  0,  0,  0,  0,  0,  0,  0,  0,  0,  0,  0,  0,
    0,  0,  0,  0,  0,  0,  0,  0,  0,  0,  0,  0,  0,  0,  0,  0,
    0,  0,  0,  0,  0,  0,  0,  0,  0,  0,  0,  0,  0,  0,  0,  0,
    0,  0,  0,  0,  0,  0,  0,  0,  0,  0,  0,  0,  0,  0,  0,  0
 ]

/-- The table pll_map_amb of maps.c. -/
def pll_map_amb : List Nat :=
 [
    0,  0,  0,  0,  0,  0,  0,  0,  0,  0,  0,  0,  0,  0,  0,  0,
    0,  0,  0,  0,  0,  0,  0,  0,  0,  0,  0,  0,  0,  0,  0,  0,
    0,  0,  0,  0,  0,  0,  0,  0,  0,  0,  0,  0,  0,  1,  0,  0,
    0,  0,  0,  0,  0,  0,  0,  0,  0,  0,  0,  0,  0,  0,  0,  1,
    0,  0,  1,  0,  1,  0,  0,  0,  1,  0,  0,  1,  0,  1,  1,  1,
    0,  0,  1,  1,  0,  0,  1,  1,  1,  1,  0,  0,  0,  0,  0,  0,
    0,  0,  1,  0,  1,  0,  0,  0,  1,  0,  0,  1,  0,  1,  1,  1,
    0,  0,  1,  1,  0,  0,  1,  1,  1,  1,  0,  0,  0,  0,  0,  0,
    0,  0,  0,  0,  0,  0,  0,  0,  0,  0,  0,  0,  0,  0,  0,  0,
    0,  0,  0,  0,  0,  0,  0,  0,  0,  0,  0,  0,  0,  0,  0,  0,
    0,  0,  0,  0,  0,  0,  0,  0,  0,  0,  0,  0,  0,  0,  0,  0,
    0,  0,  0,  0,  0,  0,  0,  0,  0,  0,  0,  0,  0,  0,  0,  0,
    0,  0,  0,  0,  0,  0,  0,  0,  0,  0,  0,  0,  0,  0,  0,  0,
    0,  0,  0,  0,  0,  0,  0,  0,  0,  0,  0,  0,  0,  0,  0,  0,
    0,  0,  0,  0,  0,  0,  0,  0,  0,  0,  0,  0,  0,  0,  0,  0,
    0,  0,  0,  0,  0,  0,  0,  0,  0,  0,  0,  0,  0,  0,  0,  0
 ]

/-- The table pll_map_fasta of maps.c:
0 = stripped, 1 = legal, 2 = fatal, 3 = silently stripped. -/
def pll_map_fasta : List Nat :=
 [
    2,  2,  2,  2,  2,  2,  2,  2,  2,  3,  3,  3,  3,  3,  2,  2,
    2,  2,  2,  2,  2,  2,  2,  2,  2,  2,  2,  2,  2,  2,  2,  2,
    0,  0,  0,  0,  0,  0,  0,  0,  0,  0,  0,  0,  0,  1,  2,  0,
    0,  0,  0,  0,  0,  0,  0,  0,  0,  0,  0,  0,  0,  0,  0,  1,
    0,  1,  1,  1,  1,  0,  0,  1,  1,  0,  0,  1,  0,  1,  1,  0,
    0,  0,  1,  1,  1,  1,  1,  1,  0,  1,  0,  0,  0,  0,  0,  0,
    0,  1,  1,  1,  1,  0,  0,  1,  1,  0,  0,  1,  0,  1,  1,  0,
    0,  0,  1,  1,  1,  1,  1,  1,  0,  1,  0,  0,  0,  0,  0,  0,
    0,  0,  0,  0,  0,  0,  0,  0,  0,  0,  0,  0,  0,  0,  0,  0,
    0,  0,  0,  0,  0,  0,  0,  0,  0,  0,  0,  0,  0,  0,  0,  0,
    0,  0,  0,  0,  0,  0,  0,  0,  0,  0,  0,  0,  0,  0,  0,  0,
    0,  0,  0,  0,  0,  0,  0,  0,  0,  0,  0,  0,  0,  0,  0,  0,
    0,  0,  0,  0,  0,  0,  0,  0,  0,  0,  0,  0,  0,  0,  0,  0,
    0,  0,  0,  0,  0,  0,  0,  0,  0,  0,  0,  0,  0,  0,  0,  0,
    0,  0,  0,  0,  0,  0,  0,  0,  0,  0,  0,  0,  0,  0,  0,  0,
    0,  0,  0,  0,  0,  0,  0,  0,  0,  0,  0,  0,  0,  0,  0,  0
 ]

/-- The table pll_map_validjc69 of maps.c, indexed by a state-set. -/
def pll_map_validjc69 : List Nat :=
 [
    0,  1,  1,  0,  1,  0,  0,  0,  1,  0,  0,  0,  0,  0,  0,  1
 ]

/-- The composed subscript pll_map_validjc69[pll_map_nt[c]]: none when either
subscript falls outside its array. -/
def validjc69_of_char (c : Nat) : Option Nat :=
  (pll_map_nt[c]?).bind fun s => pll_map_validjc69[s]?

/-- The bitwise OR of the pll_map_nt entries of the listed characters, starting
from the empty state-set; none when a subscript falls outside the array. -/
def nt_union (cs : List Char) : Option Nat :=
  cs.foldl (fun acc ch => acc.bind fun a => (pll_map_nt[ch.toNat]?).map fun x => a ||| x) (some 0)

/-- The number of bits set in an unsigned int value, counted over its 32 bits. -/
def bit_count (s : Nat) : Nat :=
  (List.range 32).countP fun i => s.testBit i

/-! ## src/bpp.h -/

/-- The macro PLL_ALIGNMENT_CPU of bpp.h. -/
def PLL_ALIGNMENT_CPU : Nat := 8

/-- The macro PLL_ALIGNMENT_SSE of bpp.h. -/
def PLL_ALIGNMENT_SSE : Nat := 16

/-- The macro PLL_ALIGNMENT_AVX of bpp.h. -/
def PLL_ALIGNMENT_AVX : Nat := 32

/-- The macro PLL_ATTRIB_ARCH_CPU of bpp.h. -/
def PLL_ATTRIB_ARCH_CPU : Nat := 0

/-- The macro PLL_ATTRIB_ARCH_SSE of bpp.h: (1 << 0). -/
def PLL_ATTRIB_ARCH_SSE : Nat := 1 <<< 0

/-- The macro PLL_ATTRIB_ARCH_AVX of bpp.h: (1 << 1). -/
def PLL_ATTRIB_ARCH_AVX : Nat := 1 <<< 1

/-- The macro PLL_ATTRIB_ARCH_AVX2 of bpp.h: (1 << 2). -/
def PLL_ATTRIB_ARCH_AVX2 : Nat := 1 <<< 2

/-- The macro PLL_ATTRIB_ARCH_AVX512 of bpp.h: (1 << 3). -/
def PLL_ATTRIB_ARCH_AVX512 : Nat := 1 <<< 3

/-- The macro PLL_ATTRIB_ARCH_MASK of bpp.h: 0xF. -/
def PLL_ATTRIB_ARCH_MASK : Nat := 0xF

/-- The macro PLL_ATTRIB_PATTERN_TIP of bpp.h: (1 << 4), defined twice there with
the same body. -/
def PLL_ATTRIB_PATTERN_TIP : Nat := 1 <<< 4

/-- The macro PLL_ATTRIB_RATE_SCALERS of bpp.h: (1 << 9). -/
def PLL_ATTRIB_RATE_SCALERS : Nat := 1 <<< 9

/-- The macro PLL_SCALE_FACTOR of bpp.h, its decimal literal read as a rational. -/
def PLL_SCALE_FACTOR : ℚ :=
  115792089237316195423570985008687907853269984665640564039457584007913129639936

/-- The macro PLL_SCALE_THRESHOLD of bpp.h: (1.0/PLL_SCALE_FACTOR), over the rationals. -/
def PLL_SCALE_THRESHOLD : ℚ := 1 / PLL_SCALE_FACTOR

/-- The macro PLL_SCALE_FACTOR_SQRT of bpp.h, its decimal literal read as a rational. -/
def PLL_SCALE_FACTOR_SQRT : ℚ :=
  340282366920938463463374607431768211456

/-! ## Theorems -/

/-! ### Helper facts, each checked by evaluating the tables -/

theorem pll_map_nt_length : pll_map_nt.length = 256 := by decide

theorem pll_map_fasta_length : pll_map_fasta.length = 256 := by decide

theorem pll_map_validjc69_length : pll_map_validjc69.length = 16 := by decide

theorem nt_entry_bound :
    ∀ c, c < 256 → ((pll_map_nt[c]?).bind fun s =>
      if s < 16 then pll_map_validjc69[s]? else none).isSome = true := by
  decide

theorem fasta_legal_nt_table :
    ∀ c, c < 256 → pll_map_fasta[c]? = some 1 →
      ((pll_map_nt[c]?).isSome = true ∧ pll_map_nt[c]? ≠ some 0) := by
  decide

theorem nt_fasta_table :
    ∀ c, c < 256 → (pll_map_nt[c]? = some 0 ∨ pll_map_fasta[c]? = some 1 ∨
      c ∈ [79, 88, 111, 120]) := by
  decide

/-! ### The claims -/

/-- C1: pll_map_nt encodes the four bases as pairwise distinct single bits,
A as 1, C as 2, G as 4 and T as 8, and U receives the same code as T. -/
theorem C1_base_codes :
    pll_map_nt['A'.toNat]? = some 1 ∧ pll_map_nt['C'.toNat]? = some 2 ∧
    pll_map_nt['G'.toNat]? = some 4 ∧ pll_map_nt['T'.toNat]? = some 8 ∧
    pll_map_nt['U'.toNat]? = pll_map_nt['T'.toNat]? ∧
    pll_map_nt['A'.toNat]? = some (2 ^ 0) ∧ pll_map_nt['C'.toNat]? = some (2 ^ 1) ∧
    pll_map_nt['G'.toNat]? = some (2 ^ 2) ∧ pll_map_nt['T'.toNat]? = some (2 ^ 3) ∧
    (['A', 'C', 'G', 'T'].map fun ch => pll_map_nt[ch.toNat]?).Nodup := by
  decide

/-- C2: for every IUPAC ambiguity letter, pll_map_nt gives the bitwise OR of the
codes of the bases the letter stands for: R = A|G, Y = C|T, S = C|G, W = A|T,
K = G|T, M = A|C, B = C|G|T, D = A|G|T, H = A|C|T, V = A|C|G, N = A|C|G|T.  Each
entry is given with its value, so that no side of an equation is an absent entry. -/
theorem C2_ambiguity_codes_are_unions :
    (pll_map_nt['R'.toNat]? = nt_union ['A', 'G'] ∧ pll_map_nt['R'.toNat]? = some 5) ∧
    (pll_map_nt['Y'.toNat]? = nt_union ['C', 'T'] ∧ pll_map_nt['Y'.toNat]? = some 10) ∧
    (pll_map_nt['S'.toNat]? = nt_union ['C', 'G'] ∧ pll_map_nt['S'.toNat]? = some 6) ∧
    (pll_map_nt['W'.toNat]? = nt_union ['A', 'T'] ∧ pll_map_nt['W'.toNat]? = some 9) ∧
    (pll_map_nt['K'.toNat]? = nt_union ['G', 'T'] ∧ pll_map_nt['K'.toNat]? = some 12) ∧
    (pll_map_nt['M'.toNat]? = nt_union ['A', 'C'] ∧ pll_map_nt['M'.toNat]? = some 3) ∧
    (pll_map_nt['B'.toNat]? = nt_union ['C', 'G', 'T'] ∧ pll_map_nt['B'.toNat]? = some 14) ∧
    (pll_map_nt['D'.toNat]? = nt_union ['A', 'G', 'T'] ∧ pll_map_nt['D'.toNat]? = some 13) ∧
    (pll_map_nt['H'.toNat]? = nt_union ['A', 'C', 'T'] ∧ pll_map_nt['H'.toNat]? = some 11) ∧
    (pll_map_nt['V'.toNat]? = nt_union ['A', 'C', 'G'] ∧ pll_map_nt['V'.toNat]? = some 7) ∧
    (pll_map_nt['N'.toNat]? = nt_union ['A', 'C', 'G', 'T'] ∧
      pll_map_nt['N'.toNat]? = some 15) := by
  decide

/-- C3: the gap and unknown characters N, ?, - and X, and the lower-case n and x,
all map in pll_map_nt to the full state-set 15. -/
theorem C3_gap_characters_full_state :
    pll_map_nt['N'.toNat]? = some 15 ∧ pll_map_nt['?'.toNat]? = some 15 ∧
    pll_map_nt['-'.toNat]? = some 15 ∧ pll_map_nt['X'.toNat]? = some 15 ∧
    pll_map_nt['n'.toNat]? = some 15 ∧ pll_map_nt['x'.toNat]? = some 15 := by
  decide

/-- C4: for every byte value c in 0..255 the entry pll_map_nt[c] exists and is a
4-bit value s < 16, so the composed subscript pll_map_validjc69[pll_map_nt[c]]
into the 16-entry table is in bounds: it yields an entry v. -/
theorem C4_nt_entries_index_validjc69 (c : Nat) (hc : c < 256) :
    ∃ s, pll_map_nt[c]? = some s ∧ s < 16 ∧ s < pll_map_validjc69.length ∧
      ∃ v, pll_map_validjc69[s]? = some v ∧ validjc69_of_char c = some v := by
  have h1 := nt_entry_bound c hc
  cases hs : pll_map_nt[c]? with
  | none => simp [hs] at h1
  | some s =>
    simp only [hs, Option.bind] at h1
    by_cases hlt : s < 16
    · simp only [hlt, if_true] at h1
      obtain ⟨v, hv⟩ := Option.isSome_iff_exists.mp h1
      refine ⟨s, rfl, hlt, ?_, v, hv, ?_⟩
      · rw [pll_map_validjc69_length]; exact hlt
      · simp [validjc69_of_char, hs, hv]
    · simp [hlt] at h1

/-- Witness of C4 at the byte 65, the letter A. -/
theorem C4_nt_entries_index_validjc69_witness :
    65 < 256 ∧ ∃ s, pll_map_nt[65]? = some s ∧ s < 16 ∧ s < pll_map_validjc69.length ∧
      ∃ v, pll_map_validjc69[s]? = some v ∧ validjc69_of_char 65 = some v :=
  ⟨by decide, C4_nt_entries_index_validjc69 65 (by decide)⟩

/-- C5: for every state s in 0..15, pll_map_validjc69[s] is 1 exactly when s is a
one-out-of-N state (1, 2, 4 or 8) or the gap state 15, and is 0 otherwise. -/
theorem C5_validjc69_states (s : Nat) (hs : s < 16) :
    (pll_map_validjc69[s]? = some 1 ↔ (s = 1 ∨ s = 2 ∨ s = 4 ∨ s = 8 ∨ s = 15)) ∧
    (¬ (s = 1 ∨ s = 2 ∨ s = 4 ∨ s = 8 ∨ s = 15) → pll_map_validjc69[s]? = some 0) := by
  revert s
  decide

/-- Witness of C5 at the empty state 0, which is not valid. -/
theorem C5_validjc69_states_witness :
    0 < 16 ∧
    ((pll_map_validjc69[0]? = some 1 ↔ (0 = 1 ∨ 0 = 2 ∨ 0 = 4 ∨ 0 = 8 ∨ 0 = 15)) ∧
     (¬ (0 = 1 ∨ 0 = 2 ∨ 0 = 4 ∨ 0 = 8 ∨ 0 = 15) → pll_map_validjc69[0]? = some 0)) ∧
    pll_map_validjc69[0]? = some 0 :=
  ⟨by decide, C5_validjc69_states 0 (by decide), by decide⟩

/-- C6, as claimed, fails: it is not the case that for every byte c the character
is JC69-valid exactly when c is one of A, C, G, T, N, ?, -, X or a lower-case
form of one of these letters.  The letter U (byte 85) is JC69-valid. -/
theorem C6_claimed_characters_counterexample :
    ¬ (∀ c, c < 256 → (validjc69_of_char c = some 1 ↔
        c ∈ ['A', 'C', 'G', 'T', 'N', '?', '-', 'X',
             'a', 'c', 'g', 't', 'n', 'x'].map Char.toNat)) := by
  intro h
  have h85 := h 85 (by decide)
  revert h85
  decide

/-- C6, amended: for every byte c, pll_map_validjc69[pll_map_nt[c]] = 1 if and
only if pll_map_nt[c] is one of the states 1, 2, 4, 8, 15, that is, if and only
if c is one of A, C, G, T, U or one of the characters N, O, X, ?, - that
pll_map_nt sends to 15 (letters in either case). -/
theorem C6_jc69_valid_characters (c : Nat) (hc : c < 256) :
    (validjc69_of_char c = some 1 ↔
      c ∈ ['A', 'C', 'G', 'T', 'U', 'N', 'O', 'X', '?', '-',
           'a', 'c', 'g', 't', 'u', 'n', 'o', 'x'].map Char.toNat) ∧
    (validjc69_of_char c = some 1 ↔
      (pll_map_nt[c]? = some 1 ∨ pll_map_nt[c]? = some 2 ∨ pll_map_nt[c]? = some 4 ∨
        pll_map_nt[c]? = some 8 ∨ pll_map_nt[c]? = some 15)) := by
  revert c
  decide

/-- Witness of amended C6 at the byte 85, the letter U. -/
theorem C6_jc69_valid_characters_witness :
    85 < 256 ∧ validjc69_of_char 85 = some 1 ∧
    ((validjc69_of_char 85 = some 1 ↔
      85 ∈ ['A', 'C', 'G', 'T', 'U', 'N', 'O', 'X', '?', '-',
            'a', 'c', 'g', 't', 'u', 'n', 'o', 'x'].map Char.toNat) ∧
    (validjc69_of_char 85 = some 1 ↔
      (pll_map_nt[85]? = some 1 ∨ pll_map_nt[85]? = some 2 ∨ pll_map_nt[85]? = some 4 ∨
        pll_map_nt[85]? = some 8 ∨ pll_map_nt[85]? = some 15))) :=
  ⟨by decide, by decide, C6_jc69_valid_characters 85 (by decide)⟩

/-- C7: every character that the sequence-parsing map accepts as legal has a
non-empty state-set in the nucleotide map: for every byte c, pll_map_fasta[c] = 1
implies that pll_map_nt[c] is an entry s with s != 0. -/
theorem C7_fasta_legal_has_state (c : Nat) (hc : c < 256)
    (hlegal : pll_map_fasta[c]? = some 1) :
    ∃ s, pll_map_nt[c]? = some s ∧ s ≠ 0 := by
  obtain ⟨h1, h2⟩ := fasta_legal_nt_table c hc hlegal
  obtain ⟨s, hs⟩ := Option.isSome_iff_exists.mp h1
  refine ⟨s, hs, ?_⟩
  intro h0
  exact h2 (by rw [hs, h0])

/-- Witness of C7 at the byte 65, the letter A, which is legal. -/
theorem C7_fasta_legal_has_state_witness :
    65 < 256 ∧ pll_map_fasta[65]? = some 1 ∧ ∃ s, pll_map_nt[65]? = some s ∧ s ≠ 0 :=
  ⟨by decide, by decide, C7_fasta_legal_has_state 65 (by decide) (by decide)⟩

/-- C8, as claimed, fails: it is not the case that for every byte c a non-zero
entry pll_map_nt[c] implies pll_map_fasta[c] = 1.  The letter O (byte 79) has
pll_map_nt[79] = 15 and pll_map_fasta[79] = 0. -/
theorem C8_nt_encoded_not_all_legal_counterexample :
    ¬ (∀ c s, c < 256 → pll_map_nt[c]? = some s → s ≠ 0 → pll_map_fasta[c]? = some 1) := by
  intro h
  have h79 := h 79 15 (by decide) (by decide) (by decide)
  revert h79
  decide

/-- C8, amended: for every byte c other than the letters O and X in either case,
a non-zero entry pll_map_nt[c] implies pll_map_fasta[c] = 1; the letter O, in
either case, is encoded as 15 by pll_map_nt and is stripped (status 0) by
pll_map_fasta. -/
theorem C8_nt_encoded_legal_except (c s : Nat) (hc : c < 256)
    (hex : c ∉ ['O', 'X', 'o', 'x'].map Char.toNat)
    (hs : pll_map_nt[c]? = some s) (hne : s ≠ 0) :
    pll_map_fasta[c]? = some 1 ∧
    (pll_map_nt['O'.toNat]? = some 15 ∧ pll_map_fasta['O'.toNat]? = some 0) ∧
    (pll_map_nt['o'.toNat]? = some 15 ∧ pll_map_fasta['o'.toNat]? = some 0) := by
  refine ⟨?_, by decide, by decide⟩
  rcases nt_fasta_table c hc with h | h | h
  · rw [hs] at h
    exact absurd (Option.some.inj h) hne
  · exact h
  · exact absurd h hex

/-- Witness of amended C8 at the byte 45, the character -, with entry 15. -/
theorem C8_nt_encoded_legal_except_witness :
    45 < 256 ∧ 45 ∉ ['O', 'X', 'o', 'x'].map Char.toNat ∧
    pll_map_nt[45]? = some 15 ∧ 15 ≠ 0 ∧
    (pll_map_fasta[45]? = some 1 ∧
    (pll_map_nt['O'.toNat]? = some 15 ∧ pll_map_fasta['O'.toNat]? = some 0) ∧
    (pll_map_nt['o'.toNat]? = some 15 ∧ pll_map_fasta['o'.toNat]? = some 0)) :=
  ⟨by decide, by decide, by decide, by decide,
    C8_nt_encoded_legal_except 45 15 (by decide) (by decide) (by decide) (by decide)⟩

/-- C9: over the rationals PLL_SCALE_THRESHOLD * PLL_SCALE_FACTOR = 1, so for
every x with 0 <= x < PLL_SCALE_THRESHOLD one scaling step gives
x * PLL_SCALE_FACTOR < 1. -/
theorem C9_scaled_below_one (x : ℚ) (h0 : 0 ≤ x) (hx : x < PLL_SCALE_THRESHOLD) :
    PLL_SCALE_THRESHOLD * PLL_SCALE_FACTOR = 1 ∧ 0 ≤ x * PLL_SCALE_FACTOR ∧
    x * PLL_SCALE_FACTOR < 1 := by
  have hpos : (0 : ℚ) < PLL_SCALE_FACTOR := by norm_num [PLL_SCALE_FACTOR]
  have hone : PLL_SCALE_THRESHOLD * PLL_SCALE_FACTOR = 1 := by
    unfold PLL_SCALE_THRESHOLD
    exact div_mul_cancel₀ 1 (ne_of_gt hpos)
  refine ⟨hone, mul_nonneg h0 (le_of_lt hpos), ?_⟩
  calc x * PLL_SCALE_FACTOR < PLL_SCALE_THRESHOLD * PLL_SCALE_FACTOR :=
        mul_lt_mul_of_pos_right hx hpos
    _ = 1 := hone

/-- Witness of C9 at x = 1 / 2^257, half of the threshold. -/
theorem C9_scaled_below_one_witness :
    (0 : ℚ) ≤ 1 / 2 ^ 257 ∧ (1 / 2 ^ 257 : ℚ) < PLL_SCALE_THRESHOLD ∧
    (PLL_SCALE_THRESHOLD * PLL_SCALE_FACTOR = 1 ∧
      0 ≤ (1 / 2 ^ 257 : ℚ) * PLL_SCALE_FACTOR ∧
      (1 / 2 ^ 257 : ℚ) * PLL_SCALE_FACTOR < 1) :=
  ⟨by norm_num, by norm_num [PLL_SCALE_THRESHOLD, PLL_SCALE_FACTOR],
    C9_scaled_below_one (1 / 2 ^ 257) (by norm_num)
      (by norm_num [PLL_SCALE_THRESHOLD, PLL_SCALE_FACTOR])⟩

/-- C10: the decimal literal that defines PLL_SCALE_FACTOR equals 2^256 exactly
as an integer: the rational it denotes has numerator 2^256 and denominator 1. -/
theorem C10_scale_factor_is_two_pow_256 :
    PLL_SCALE_FACTOR = 2 ^ 256 ∧ PLL_SCALE_FACTOR.num = 2 ^ 256 ∧
    PLL_SCALE_FACTOR.den = 1 := by
  have h : PLL_SCALE_FACTOR = ((2 ^ 256 : ℕ) : ℚ) := by norm_num [PLL_SCALE_FACTOR]
  refine ⟨by rw [h]; norm_num, ?_, ?_⟩
  · rw [h, Rat.num_natCast]; norm_num
  · rw [h, Rat.den_natCast]

/-- C11, as claimed, fails: pll_map_fasta does not mark both of the symbols
. and - as fatal.  The symbol - (byte 45) has status 1, legal. -/
theorem C11_dot_and_dash_not_both_fatal_counterexample :
    ¬ (pll_map_fasta['.'.toNat]? = some 2 ∧ pll_map_fasta['-'.toNat]? = some 2) := by
  decide

/-- C11, amended: pll_map_fasta marks the symbol . as fatal (status 2) and the
symbol - as legal (status 1). -/
theorem C11_dot_fatal_dash_legal :
    pll_map_fasta['.'.toNat]? = some 2 ∧ pll_map_fasta['-'.toNat]? = some 1 := by
  decide

/-- C12, as claimed, fails: not every symbol of the documented legal list
*abcdefghiklmnpqrstuvxyz, nor every upper-case form of its letters, has status 1
in pll_map_fasta.  The symbol * (byte 42) has status 0. -/
theorem C12_documented_legal_list_counterexample :
    ¬ (∀ ch ∈ "*abcdefghiklmnpqrstuvxyz".toList ++ "ABCDEFGHIKLMNPQRSTUVXYZ".toList,
        pll_map_fasta[ch.toNat]? = some 1) := by
  intro h
  have hstar := h '*' (by decide)
  revert hstar
  decide

/-- C12, amended: of the symbols in the documented legal list, the letters
a b c d g h k m n r s t u v y, and the upper-case form of each, have status 1
(legal) in pll_map_fasta; the symbols * e f i l p q z, and the upper-case form of
each of these letters, have status 0 (stripped). -/
theorem C12_documented_list_statuses :
    (∀ ch ∈ "abcdghkmnrstuvy".toList ++ "ABCDGHKMNRSTUVY".toList,
      pll_map_fasta[ch.toNat]? = some 1) ∧
    (∀ ch ∈ "*efilpqz".toList ++ "EFILPQZ".toList,
      pll_map_fasta[ch.toNat]? = some 0) := by
  decide

/-- C13: for every code c in 0..26, pll_map_fasta[c] is fatal (status 2) unless c
is 9, 10, 11, 12 or 13, and for each of those five codes pll_map_fasta[c] = 3
(silently stripped). -/
theorem C13_control_codes (c : Nat) (hc : c ≤ 26) :
    (c ∈ [9, 10, 11, 12, 13] → pll_map_fasta[c]? = some 3) ∧
    (c ∉ [9, 10, 11, 12, 13] → pll_map_fasta[c]? = some 2) := by
  have h : ∀ c, c < 27 →
      (c ∈ [9, 10, 11, 12, 13] → pll_map_fasta[c]? = some 3) ∧
      (c ∉ [9, 10, 11, 12, 13] → pll_map_fasta[c]? = some 2) := by
    decide
  exact h c (Nat.lt_succ_of_le hc)

/-- Witness of C13 at the code 9 (tab), silently stripped, with the fatal code 0
beside it. -/
theorem C13_control_codes_witness :
    9 ≤ 26 ∧ pll_map_fasta[9]? = some 3 ∧ pll_map_fasta[0]? = some 2 ∧
    ((9 ∈ [9, 10, 11, 12, 13] → pll_map_fasta[9]? = some 3) ∧
     (9 ∉ [9, 10, 11, 12, 13] → pll_map_fasta[9]? = some 2)) :=
  ⟨by decide, by decide, by decide, C13_control_codes 9 (by decide)⟩

/-- C14: the character maps are case-insensitive: for each of pll_map_nt,
pll_map_amb and pll_map_fasta and for every upper-case letter c in A..Z, the
entry at c exists and equals the entry at the lower-case letter c + 32. -/
theorem C14_case_insensitive (c : Nat) (hlo : 'A'.toNat ≤ c) (hhi : c ≤ 'Z'.toNat) :
    (pll_map_nt[c]? = pll_map_nt[c + 32]? ∧ (pll_map_nt[c]?).isSome = true) ∧
    (pll_map_amb[c]? = pll_map_amb[c + 32]? ∧ (pll_map_amb[c]?).isSome = true) ∧
    (pll_map_fasta[c]? = pll_map_fasta[c + 32]? ∧ (pll_map_fasta[c]?).isSome = true) := by
  have h : ∀ c, c < 91 → 65 ≤ c →
      (pll_map_nt[c]? = pll_map_nt[c + 32]? ∧ (pll_map_nt[c]?).isSome = true) ∧
      (pll_map_amb[c]? = pll_map_amb[c + 32]? ∧ (pll_map_amb[c]?).isSome = true) ∧
      (pll_map_fasta[c]? = pll_map_fasta[c + 32]? ∧
        (pll_map_fasta[c]?).isSome = true) := by
    decide
  have hA : 'A'.toNat = 65 := by decide
  have hZ : 'Z'.toNat = 90 := by decide
  rw [hA] at hlo
  rw [hZ] at hhi
  exact h c (Nat.lt_succ_of_le hhi) hlo

/-- Witness of C14 at the letter R, whose entries are 5, 1 and 1 in both cases. -/
theorem C14_case_insensitive_witness :
    'A'.toNat ≤ 'R'.toNat ∧ 'R'.toNat ≤ 'Z'.toNat ∧ 'R'.toNat + 32 = 'r'.toNat ∧
    pll_map_nt['r'.toNat]? = some 5 ∧
    ((pll_map_nt['R'.toNat]? = pll_map_nt['R'.toNat + 32]? ∧
        (pll_map_nt['R'.toNat]?).isSome = true) ∧
     (pll_map_amb['R'.toNat]? = pll_map_amb['R'.toNat + 32]? ∧
        (pll_map_amb['R'.toNat]?).isSome = true) ∧
     (pll_map_fasta['R'.toNat]? = pll_map_fasta['R'.toNat + 32]? ∧
        (pll_map_fasta['R'.toNat]?).isSome = true)) :=
  ⟨by decide, by decide, by decide, by decide,
    C14_case_insensitive 'R'.toNat (by decide) (by decide)⟩

/-- C15: pll_map_amb agrees with pll_map_nt: for every byte c, pll_map_amb[c] is 0
or 1, and pll_map_amb[c] = 1 exactly when the entry pll_map_nt[c] has two or more
bits set. -/
theorem C15_amb_agrees_with_nt (c : Nat) (hc : c < 256) :
    (pll_map_amb[c]? = some 0 ∨ pll_map_amb[c]? = some 1) ∧
    ∃ s, pll_map_nt[c]? = some s ∧ (pll_map_amb[c]? = some 1 ↔ 2 ≤ bit_count s) := by
  have h : ∀ c, c < 256 →
      (pll_map_amb[c]? = some 0 ∨ pll_map_amb[c]? = some 1) ∧
      ((pll_map_nt[c]?).bind fun s =>
        if (pll_map_amb[c]? = some 1 ↔ 2 ≤ bit_count s) then some s else none).isSome
        = true := by
    decide
  obtain ⟨h1, h2⟩ := h c hc
  refine ⟨h1, ?_⟩
  cases hs : pll_map_nt[c]? with
  | none => simp [hs] at h2
  | some s =>
    simp only [hs, Option.bind] at h2
    by_cases hp : (pll_map_amb[c]? = some 1 ↔ 2 ≤ bit_count s)
    · exact ⟨s, rfl, hp⟩
    · simp [hp] at h2

/-- Witness of C15 at the byte 45, the gap character -, which is ambiguous. -/
theorem C15_amb_agrees_with_nt_witness :
    45 < 256 ∧ pll_map_amb[45]? = some 1 ∧ bit_count 15 = 4 ∧
    ((pll_map_amb[45]? = some 0 ∨ pll_map_amb[45]? = some 1) ∧
    ∃ s, pll_map_nt[45]? = some s ∧ (pll_map_amb[45]? = some 1 ↔ 2 ≤ bit_count s)) :=
  ⟨by decide, by decide, by decide, C15_amb_agrees_with_nt 45 (by decide)⟩

/-- C16: JC69 validity is consistent with the ambiguity map: for every byte c
with pll_map_nt[c] != 0, pll_map_validjc69[pll_map_nt[c]] = 1 if and only if
pll_map_amb[c] = 0 or pll_map_nt[c] = 15. -/
theorem C16_validjc69_consistent_with_amb (c : Nat) (hc : c < 256)
    (hne : pll_map_nt[c]? ≠ some 0) :
    validjc69_of_char c = some 1 ↔
      (pll_map_amb[c]? = some 0 ∨ pll_map_nt[c]? = some 15) := by
  revert c
  decide

/-- Witness of C16 at the byte 82, the letter R: state 5, ambiguous, not valid. -/
theorem C16_validjc69_consistent_with_amb_witness :
    82 < 256 ∧ pll_map_nt[82]? = some 5 ∧ pll_map_nt[82]? ≠ some 0 ∧
    validjc69_of_char 82 = some 0 ∧ pll_map_amb[82]? = some 1 ∧
    (validjc69_of_char 82 = some 1 ↔
      (pll_map_amb[82]? = some 0 ∨ pll_map_nt[82]? = some 15)) :=
  ⟨by decide, by decide, by decide, by decide, by decide,
    C16_validjc69_consistent_with_amb 82 (by decide) (by decide)⟩

/-- C17: pll_map_nt[c] != 0 exactly for -, ? and the letters
A B C D G H K M N O R S T U V W X Y in either case; every other byte in 0..255
maps to 0. -/
theorem C17_nt_nonzero_characters (c : Nat) (hc : c < 256) :
    (c ∈ ("-?ABCDGHKMNORSTUVWXY".toList ++ "abcdghkmnorstuvwxy".toList).map Char.toNat →
      (pll_map_nt[c]?).isSome = true ∧ pll_map_nt[c]? ≠ some 0) ∧
    (c ∉ ("-?ABCDGHKMNORSTUVWXY".toList ++ "abcdghkmnorstuvwxy".toList).map Char.toNat →
      pll_map_nt[c]? = some 0) := by
  revert c
  decide

/-- Witness of C17 at the byte 69, the letter E, which maps to 0. -/
theorem C17_nt_nonzero_characters_witness :
    69 < 256 ∧ pll_map_nt[69]? = some 0 ∧
    ((69 ∈ ("-?ABCDGHKMNORSTUVWXY".toList ++ "abcdghkmnorstuvwxy".toList).map Char.toNat →
      (pll_map_nt[69]?).isSome = true ∧ pll_map_nt[69]? ≠ some 0) ∧
    (69 ∉ ("-?ABCDGHKMNORSTUVWXY".toList ++ "abcdghkmnorstuvwxy".toList).map Char.toNat →
      pll_map_nt[69]? = some 0)) :=
  ⟨by decide, by decide, C17_nt_nonzero_characters 69 (by decide)⟩

/-- C18: pll_map_fasta[c] = 1 (legal) exactly for -, ? and the IUPAC nucleotide
letters A B C D G H K M N R S T U V W Y in either case; no other byte in 0..255
is legal. -/
theorem C18_fasta_legal_characters (c : Nat) (hc : c < 256) :
    pll_map_fasta[c]? = some 1 ↔
      c ∈ ("-?ABCDGHKMNRSTUVWY".toList ++ "abcdghkmnrstuvwy".toList).map Char.toNat := by
  revert c
  decide

/-- Witness of C18 at the byte 63, the character ?, which is legal. -/
theorem C18_fasta_legal_characters_witness :
    63 < 256 ∧ pll_map_fasta[63]? = some 1 ∧
    (pll_map_fasta[63]? = some 1 ↔
      63 ∈ ("-?ABCDGHKMNRSTUVWY".toList ++ "abcdghkmnrstuvwy".toList).map Char.toNat) :=
  ⟨by decide, by decide, C18_fasta_legal_characters 63 (by decide)⟩

/-- C19: pll_map_nt covers every non-empty state-set: for every s in 1..15 there
is an upper-case letter c with pll_map_nt[c] = s. -/
theorem C19_every_state_has_letter (s : Nat) (hlo : 1 ≤ s) (hhi : s ≤ 15) :
    ∃ c, 'A'.toNat ≤ c ∧ c ≤ 'Z'.toNat ∧ pll_map_nt[c]? = some s := by
  have h : ∀ s, s < 16 → 1 ≤ s →
      ∃ c, c < 91 ∧ 65 ≤ c ∧ pll_map_nt[c]? = some s := by
    decide
  obtain ⟨c, h1, h2, h3⟩ := h s (Nat.lt_succ_of_le hhi) hlo
  have hA : 'A'.toNat = 65 := by decide
  have hZ : 'Z'.toNat = 90 := by decide
  exact ⟨c, by rw [hA]; exact h2, by rw [hZ]; exact Nat.le_of_lt_succ h1, h3⟩

/-- Witness of C19 at the state 7, which is the entry of the letter V. -/
theorem C19_every_state_has_letter_witness :
    1 ≤ 7 ∧ 7 ≤ 15 ∧ pll_map_nt['V'.toNat]? = some 7 ∧
    ∃ c, 'A'.toNat ≤ c ∧ c ≤ 'Z'.toNat ∧ pll_map_nt[c]? = some 7 :=
  ⟨by decide, by decide, by decide, C19_every_state_has_letter 7 (by decide) (by decide)⟩

/-- C20: the literal of PLL_SCALE_FACTOR_SQRT equals 2^128 exactly, as an integer
(numerator 2^128, denominator 1), and PLL_SCALE_FACTOR_SQRT * PLL_SCALE_FACTOR_SQRT
= PLL_SCALE_FACTOR. -/
theorem C20_scale_factor_sqrt :
    PLL_SCALE_FACTOR_SQRT = 2 ^ 128 ∧ PLL_SCALE_FACTOR_SQRT.num = 2 ^ 128 ∧
    PLL_SCALE_FACTOR_SQRT.den = 1 ∧
    PLL_SCALE_FACTOR_SQRT * PLL_SCALE_FACTOR_SQRT = PLL_SCALE_FACTOR := by
  have h : PLL_SCALE_FACTOR_SQRT = ((2 ^ 128 : ℕ) : ℚ) := by
    norm_num [PLL_SCALE_FACTOR_SQRT]
  refine ⟨by rw [h]; norm_num, ?_, ?_, by norm_num [PLL_SCALE_FACTOR_SQRT, PLL_SCALE_FACTOR]⟩
  · rw [h, Rat.num_natCast]; norm_num
  · rw [h, Rat.den_natCast]

/-- C21: the architecture bits can be recovered from an attribute word by masking:
for every architecture value a among PLL_ATTRIB_ARCH_CPU, _SSE, _AVX, _AVX2,
_AVX512 and every combination f of the flags PLL_ATTRIB_PATTERN_TIP and
PLL_ATTRIB_RATE_SCALERS, (a | f) & PLL_ATTRIB_ARCH_MASK = a; the five
architecture values are pairwise distinct and PLL_ATTRIB_ARCH_MASK is the OR of
the four non-zero ones. -/
theorem C21_arch_bits_recovered_by_mask :
    (∀ a ∈ [PLL_ATTRIB_ARCH_CPU, PLL_ATTRIB_ARCH_SSE, PLL_ATTRIB_ARCH_AVX,
            PLL_ATTRIB_ARCH_AVX2, PLL_ATTRIB_ARCH_AVX512],
      ∀ f ∈ [0, PLL_ATTRIB_PATTERN_TIP, PLL_ATTRIB_RATE_SCALERS,
             PLL_ATTRIB_PATTERN_TIP ||| PLL_ATTRIB_RATE_SCALERS],
        (a ||| f) &&& PLL_ATTRIB_ARCH_MASK = a) ∧
    [PLL_ATTRIB_ARCH_CPU, PLL_ATTRIB_ARCH_SSE, PLL_ATTRIB_ARCH_AVX,
      PLL_ATTRIB_ARCH_AVX2, PLL_ATTRIB_ARCH_AVX512].Nodup ∧
    PLL_ATTRIB_ARCH_MASK =
      PLL_ATTRIB_ARCH_SSE ||| PLL_ATTRIB_ARCH_AVX ||| PLL_ATTRIB_ARCH_AVX2 |||
        PLL_ATTRIB_ARCH_AVX512 ∧
    PLL_ATTRIB_ARCH_SSE ≠ 0 ∧ PLL_ATTRIB_ARCH_AVX ≠ 0 ∧ PLL_ATTRIB_ARCH_AVX2 ≠ 0 ∧
    PLL_ATTRIB_ARCH_AVX512 ≠ 0 := by
  decide

/-- C22: the SIMD alignment constants are 16 bytes for SSE and 32 bytes for AVX,
each a power of two, and they nest: every address a that is a multiple of
PLL_ALIGNMENT_AVX is a multiple of PLL_ALIGNMENT_SSE, and every address b that is
a multiple of PLL_ALIGNMENT_SSE is a multiple of PLL_ALIGNMENT_CPU, which is 8. -/
theorem C22_alignments_nest (a b : Nat) (ha : PLL_ALIGNMENT_AVX ∣ a)
    (hb : PLL_ALIGNMENT_SSE ∣ b) :
    (PLL_ALIGNMENT_SSE = 16 ∧ PLL_ALIGNMENT_AVX = 32 ∧ PLL_ALIGNMENT_CPU = 8) ∧
    (PLL_ALIGNMENT_SSE = 2 ^ 4 ∧ PLL_ALIGNMENT_AVX = 2 ^ 5 ∧ PLL_ALIGNMENT_CPU = 2 ^ 3) ∧
    PLL_ALIGNMENT_SSE ∣ a ∧ PLL_ALIGNMENT_CPU ∣ b := by
  have hsa : PLL_ALIGNMENT_SSE ∣ PLL_ALIGNMENT_AVX := ⟨2, by decide⟩
  have hcs : PLL_ALIGNMENT_CPU ∣ PLL_ALIGNMENT_SSE := ⟨2, by decide⟩
  exact ⟨by decide, by decide, Nat.dvd_trans hsa ha, Nat.dvd_trans hcs hb⟩

/-- Witness of C22 at the addresses 64, a multiple of 32, and 48, a multiple of 16
that is not a multiple of 32. -/
theorem C22_alignments_nest_witness :
    PLL_ALIGNMENT_AVX ∣ 64 ∧ PLL_ALIGNMENT_SSE ∣ 48 ∧ ¬ PLL_ALIGNMENT_AVX ∣ 48 ∧
    ((PLL_ALIGNMENT_SSE = 16 ∧ PLL_ALIGNMENT_AVX = 32 ∧ PLL_ALIGNMENT_CPU = 8) ∧
    (PLL_ALIGNMENT_SSE = 2 ^ 4 ∧ PLL_ALIGNMENT_AVX = 2 ^ 5 ∧ PLL_ALIGNMENT_CPU = 2 ^ 3) ∧
    PLL_ALIGNMENT_SSE ∣ 64 ∧ PLL_ALIGNMENT_CPU ∣ 48) :=
  ⟨by decide, by decide, by decide, C22_alignments_nest 64 48 (by decide) (by decide)⟩

end Bpp
